import Mathlib

/-!
Verification of the implied-growth calculator's calculation and validation
modules (`src/modules/calculations.js`, `src/modules/validation.js`, and the
main entry point's orchestration).

Numbers are embedded as rationals (`ℚ`): the source's arithmetic on in-range
inputs is exact in the sense of the spec's formulas, and the claims about
formulas and invariants are claims of exact arithmetic.  A second, separate
model (`JNum := Option ℚ`, further below) captures the JavaScript behaviour
on missing / non-numeric / non-finite values, where `none` stands for a value
that is not a finite number (`undefined`, `NaN` or an infinity): every
arithmetic operation with such an operand again produces such a value, and
every comparison with such an operand is `false`.  That model is used for the
claims about missing inputs and about finiteness of results.
-/

namespace ImpliedGrowth

/-- Input record destructured by `calculateImpliedGrowth`
(`{ marketPrice, currentDividend, requiredReturn }`). -/
structure GrowthInputs where
  marketPrice : ℚ
  currentDividend : ℚ
  requiredReturn : ℚ
deriving DecidableEq

/-- The record returned by `calculateImpliedGrowth` in
`src/modules/calculations.js`. -/
structure GrowthResult where
  impliedGrowth : ℚ
  impliedGrowthDecimal : ℚ
  expectedD1 : ℚ
  dividendYield : ℚ
  isValid : Bool
deriving DecidableEq

/-- `calculateImpliedGrowth` from `src/modules/calculations.js` (lines 25-47):
`r = requiredReturn / 100`;
`impliedGrowth = (r*marketPrice - currentDividend) / (marketPrice + currentDividend)`;
`expectedD1 = currentDividend * (1 + impliedGrowth)`;
`dividendYield = (expectedD1 / marketPrice) * 100`;
returns the percentage form `impliedGrowth * 100`, the decimal form, and
`isValid = impliedGrowth < r && impliedGrowth >= 0`. -/
def calculateImpliedGrowth (p : GrowthInputs) : GrowthResult :=
  let r := p.requiredReturn / 100
  let impliedGrowth :=
    (r * p.marketPrice - p.currentDividend) / (p.marketPrice + p.currentDividend)
  let expectedD1 := p.currentDividend * (1 + impliedGrowth)
  let dividendYield := expectedD1 / p.marketPrice * 100
  { impliedGrowth := impliedGrowth * 100
    impliedGrowthDecimal := impliedGrowth
    expectedD1 := expectedD1
    dividendYield := dividendYield
    isValid := decide (impliedGrowth < r) && decide (impliedGrowth ≥ 0) }

/-- One element of the array built by `generateCashFlows`. -/
structure CashFlowPoint where
  year : ℕ
  dividend : ℚ
  investment : ℚ
  totalCashFlow : ℚ
  cumulativeCashFlow : ℚ
deriving DecidableEq

/-- The `for (let year = 1; year <= years; year++)` loop of
`generateCashFlows`, written as structural recursion on the number `n` of
remaining iterations, with `year` the loop counter and `cumulativeTotal` the
running accumulator: each iteration computes
`dividend = currentDividend * (1 + g) ^ year`, adds it to the accumulator and
pushes the point. -/
def cashFlowLoop (currentDividend g : ℚ) : ℚ → ℕ → ℕ → List CashFlowPoint
  | _, _, 0 => []
  | cumulativeTotal, year, n + 1 =>
    let dividend := currentDividend * (1 + g) ^ year
    let cumulative2 := cumulativeTotal + dividend
    { year := year
      dividend := dividend
      investment := 0
      totalCashFlow := dividend
      cumulativeCashFlow := cumulative2 }
      :: cashFlowLoop currentDividend g cumulative2 (year + 1) n

/-- `generateCashFlows` from `src/modules/calculations.js` (lines 58-88):
pushes the year-0 point
`{year:0, dividend:0, investment:-marketPrice, totalCashFlow:-marketPrice,
cumulativeCashFlow:-marketPrice}` and then runs the year `1..years` loop
(`cashFlowLoop`) starting from accumulator `-marketPrice`.  The source's
default argument `years = 10` is supplied explicitly by callers here. -/
def generateCashFlows (marketPrice currentDividend impliedGrowthDecimal : ℚ)
    (years : ℕ) : List CashFlowPoint :=
  { year := 0
    dividend := 0
    investment := -marketPrice
    totalCashFlow := -marketPrice
    cumulativeCashFlow := -marketPrice }
    :: cashFlowLoop currentDividend impliedGrowthDecimal (-marketPrice) 1 years

/-- The parameter record the main entry point's `updateCalculations`
(`src/unnamed/part_001`, lines 152-186) passes to `calculateGrowthMetrics`:
it contains `expectedDividend` as well, although `calculateGrowthMetrics`
destructures only the first three fields. -/
structure FullParams where
  marketPrice : ℚ
  currentDividend : ℚ
  requiredReturn : ℚ
  expectedDividend : ℚ
deriving DecidableEq

/-- The combined result of `calculateGrowthMetrics`: the spread
`{ ...growthData, cashFlows }`. -/
structure GrowthMetrics extends GrowthResult where
  cashFlows : List CashFlowPoint
deriving DecidableEq

/-- `calculateGrowthMetrics` from `src/modules/calculations.js` (lines
95-117): destructures `marketPrice`, `currentDividend`, `requiredReturn`
from its parameter record (and nothing else), calls
`calculateImpliedGrowth`, then `generateCashFlows` with
`impliedGrowthDecimal` from the first result and `years: 10`, and returns
the spread of both. -/
def calculateGrowthMetrics (params : FullParams) : GrowthMetrics :=
  let growthData := calculateImpliedGrowth
    { marketPrice := params.marketPrice
      currentDividend := params.currentDividend
      requiredReturn := params.requiredReturn }
  let cashFlows := generateCashFlows params.marketPrice params.currentDividend
    growthData.impliedGrowthDecimal 10
  { toGrowthResult := growthData, cashFlows := cashFlows }

/-- `calculateGordonPrice` from `src/modules/calculations.js` (lines
128-133): throws (`Except.error`) when `g >= r`, otherwise returns
`d1 / (r - g)`.  Note that every other operation of the calculation module is
embedded as a total function returning a plain record: `calculateGordonPrice`
is the only one with an error channel, matching the source where it is the
only function that throws. -/
def calculateGordonPrice (d1 r g : ℚ) : Except String ℚ :=
  if g ≥ r then Except.error "Growth rate must be less than required return"
  else Except.ok (d1 / (r - g))

/-! ### Validation module (`src/modules/validation.js`) -/

/-- The record of values `validateAllInputs` reads (`src/modules/state.js`
holds these four numeric inputs).  The validation claims quantify over
records whose fields are (finite) numbers, so the fields are rationals. -/
structure ValidationInputs where
  marketPrice : ℚ
  currentDividend : ℚ
  requiredReturn : ℚ
  expectedDividend : ℚ
deriving DecidableEq

/-- The error object built by `validateAllInputs`: one optional message per
field of `VALIDATION_RULES`, plus the optional `financial` cross-field
message. -/
structure ValidationErrors where
  marketPrice : Option String
  currentDividend : Option String
  requiredReturn : Option String
  expectedDividend : Option String
  financial : Option String
deriving DecidableEq

/-- `validateField` from `src/modules/validation.js` (lines 48-69),
specialised to a known field of `VALIDATION_RULES` with bounds
`minV`/`maxV` and the range message `rangeMsg` the source interpolates from
the rule's label, prefix/unit and bounds.  The `required` check
(`value === '' || value == null || isNaN(value)`) never fires here because
the embedded input is a rational number. -/
def validateField (minV maxV : ℚ) (rangeMsg : String) (value : ℚ) :
    Option String :=
  if value < minV then some rangeMsg
  else if value > maxV then some rangeMsg
  else none

/-- `validateFinancialLogic` from `src/modules/validation.js` (lines 77-87). -/
def validateFinancialLogic (impliedGrowth requiredReturn : ℚ) : Option String :=
  if impliedGrowth ≥ requiredReturn then
    some "Invalid inputs: implied growth rate must be less than required return"
  else if impliedGrowth < 0 then
    some "Invalid inputs: implied growth rate cannot be negative"
  else none

/-- `validateAllInputs` from `src/modules/validation.js` (lines 94-119):
per-field checks against `VALIDATION_RULES` (marketPrice 1..500,
currentDividend 0..50, requiredReturn 0.01..25, expectedDividend 0..50);
then, only when no field error was recorded, the financial-logic check on
`g = requiredReturn/100 - expectedDividend/marketPrice`. -/
def validateAllInputs (inputs : ValidationInputs) : ValidationErrors :=
  let mpE := validateField 1 500
    "Market price must be between $1 and $500" inputs.marketPrice
  let cdE := validateField 0 50
    "Current dividend must be between $0 and $50" inputs.currentDividend
  let rrE := validateField (1/100) 25
    "Required return must be between 0.01% and 25%" inputs.requiredReturn
  let edE := validateField 0 50
    "Expected next dividend must be between $0 and $50" inputs.expectedDividend
  let financial :=
    if mpE.isNone && cdE.isNone && rrE.isNone && edE.isNone then
      let r := inputs.requiredReturn / 100
      let d1 := inputs.expectedDividend
      let p0 := inputs.marketPrice
      let g := r - d1 / p0
      validateFinancialLogic g r
    else none
  { marketPrice := mpE
    currentDividend := cdE
    requiredReturn := rrE
    expectedDividend := edE
    financial := financial }

/-- All four per-field range checks of `validateAllInputs` pass. -/
def fieldsPass (inputs : ValidationInputs) : Prop :=
  (validateAllInputs inputs).marketPrice = none
  ∧ (validateAllInputs inputs).currentDividend = none
  ∧ (validateAllInputs inputs).requiredReturn = none
  ∧ (validateAllInputs inputs).expectedDividend = none

instance (inputs : ValidationInputs) : Decidable (fieldsPass inputs) := by
  unfold fieldsPass; infer_instance

/-! ### JavaScript number model for missing / non-finite values

`JNum := Option ℚ`: `some q` is the finite number `q`; `none` is a value
that is not a finite number — `undefined`, `NaN`, or `±Infinity`.  This
abstraction is sound for the operations the calculator performs: in
JavaScript, an arithmetic operation either of whose operands is
`undefined`/`NaN`/`±Infinity` produces `NaN` or `±Infinity` again in every
combination the embedded code can reach (the code never divides by a
non-finite divisor), a division of finite operands produces a finite number
exactly when the divisor is nonzero, `x ** 0` is `1` even for non-finite
`x`, and `<` / `>=` comparisons involving `NaN` are `false` (for an
`Infinity` operand the modelled `&&` of the two comparisons in `isValid` is
`false` in both the source and the model). -/

/-- A JavaScript numeric value: `some q` a finite number, `none` a
non-finite result (`undefined`, `NaN`, `±Infinity`). -/
def JNum : Type := Option ℚ
deriving DecidableEq

/-- JavaScript `+` on the model. -/
def jAdd : JNum → JNum → JNum
  | some a, some b => some (a + b)
  | _, _ => none

/-- JavaScript `-` (binary) on the model. -/
def jSub : JNum → JNum → JNum
  | some a, some b => some (a - b)
  | _, _ => none

/-- JavaScript `*` on the model. -/
def jMul : JNum → JNum → JNum
  | some a, some b => some (a * b)
  | _, _ => none

/-- JavaScript unary `-` on the model. -/
def jNeg : JNum → JNum
  | some a => some (-a)
  | none => none

/-- JavaScript `/` on the model: a finite quotient exactly when both
operands are finite and the divisor is nonzero (`x/0` is `±Infinity` or
`NaN` in JavaScript, hence `none` here). -/
def jDiv : JNum → JNum → JNum
  | some a, some b => if b = 0 then none else some (a / b)
  | _, _ => none

/-- JavaScript `Math.pow` with a natural exponent: `x ** 0 = 1` for every
`x` (including `NaN`), otherwise non-finite bases give non-finite powers. -/
def jPow : JNum → ℕ → JNum
  | _, 0 => some 1
  | some a, n + 1 => some (a ^ (n + 1))
  | none, _ + 1 => none

/-- JavaScript `<` on the model: `false` when an operand is not a finite
number (`NaN` comparisons are always `false`; an `Infinity` operand never
makes the conjunction used in `isValid` true). -/
def jLt : JNum → JNum → Bool
  | some a, some b => decide (a < b)
  | _, _ => false

/-- JavaScript `>=` on the model, same convention as `jLt`. -/
def jGe : JNum → JNum → Bool
  | some a, some b => decide (a ≥ b)
  | _, _ => false

/-- `GrowthResult` with JavaScript-modelled numbers. -/
structure GrowthResultJS where
  impliedGrowth : JNum
  impliedGrowthDecimal : JNum
  expectedD1 : JNum
  dividendYield : JNum
  isValid : Bool
deriving DecidableEq

/-- `calculateImpliedGrowth` over the JavaScript number model, line for line
the same computation as `calculateImpliedGrowth` above (the three arguments
are the three fields the source destructures). -/
def calculateImpliedGrowthJS (marketPrice currentDividend requiredReturn : JNum) :
    GrowthResultJS :=
  let r := jDiv requiredReturn (some 100)
  let impliedGrowth :=
    jDiv (jSub (jMul r marketPrice) currentDividend) (jAdd marketPrice currentDividend)
  let expectedD1 := jMul currentDividend (jAdd (some 1) impliedGrowth)
  let dividendYield := jMul (jDiv expectedD1 marketPrice) (some 100)
  { impliedGrowth := jMul impliedGrowth (some 100)
    impliedGrowthDecimal := impliedGrowth
    expectedD1 := expectedD1
    dividendYield := dividendYield
    isValid := jLt impliedGrowth r && jGe impliedGrowth (some 0) }

/-- `CashFlowPoint` with JavaScript-modelled numbers. -/
structure CashFlowPointJS where
  year : ℕ
  dividend : JNum
  investment : JNum
  totalCashFlow : JNum
  cumulativeCashFlow : JNum
deriving DecidableEq

/-- The year `1..years` loop of `generateCashFlows` over the JavaScript
number model. -/
def cashFlowLoopJS (currentDividend g : JNum) : JNum → ℕ → ℕ → List CashFlowPointJS
  | _, _, 0 => []
  | cumulativeTotal, year, n + 1 =>
    let dividend := jMul currentDividend (jPow (jAdd (some 1) g) year)
    let cumulative2 := jAdd cumulativeTotal dividend
    { year := year
      dividend := dividend
      investment := some 0
      totalCashFlow := dividend
      cumulativeCashFlow := cumulative2 }
      :: cashFlowLoopJS currentDividend g cumulative2 (year + 1) n

/-- `generateCashFlows` over the JavaScript number model. -/
def generateCashFlowsJS (marketPrice currentDividend impliedGrowthDecimal : JNum)
    (years : ℕ) : List CashFlowPointJS :=
  { year := 0
    dividend := some 0
    investment := jNeg marketPrice
    totalCashFlow := jNeg marketPrice
    cumulativeCashFlow := jNeg marketPrice }
    :: cashFlowLoopJS currentDividend impliedGrowthDecimal (jNeg marketPrice) 1 years

/-- `GrowthMetrics` with JavaScript-modelled numbers. -/
structure GrowthMetricsJS extends GrowthResultJS where
  cashFlows : List CashFlowPointJS
deriving DecidableEq

/-- `calculateGrowthMetrics` over the JavaScript number model: exactly the
source's composition — it performs no input check of its own, the three
destructured fields flow straight into `calculateImpliedGrowthJS` and
`generateCashFlowsJS` with `years = 10`. -/
def calculateGrowthMetricsJS (marketPrice currentDividend requiredReturn : JNum) :
    GrowthMetricsJS :=
  let growthData := calculateImpliedGrowthJS marketPrice currentDividend requiredReturn
  let cashFlows := generateCashFlowsJS marketPrice currentDividend
    growthData.impliedGrowthDecimal 10
  { toGrowthResultJS := growthData, cashFlows := cashFlows }

/-! ### Helper lemmas -/

/-- `isValid` of `calculateImpliedGrowth` unfolded to the order predicate. -/
theorem isValid_eq_true_iff (p : GrowthInputs) :
    (calculateImpliedGrowth p).isValid = true
      ↔ 0 ≤ (calculateImpliedGrowth p).impliedGrowthDecimal
        ∧ (calculateImpliedGrowth p).impliedGrowthDecimal < p.requiredReturn / 100 := by
  simp only [calculateImpliedGrowth, Bool.and_eq_true, decide_eq_true_eq, ge_iff_le]
  tauto

/-- The algebraic round trip between the closed-form solve and the
direct-`D1` formula: substituting `D1 = D0 * (1 + g)` for the solved `g`
into `r - D1 / P` gives back `g`. -/
theorem growth_roundTrip_aux (P D0 rr : ℚ) (hP : P ≠ 0) (hPD : P + D0 ≠ 0) :
    rr / 100 - D0 * (1 + (rr / 100 * P - D0) / (P + D0)) / P
      = (rr / 100 * P - D0) / (P + D0) := by
  field_simp
  ring

/-- `validateField` reports no error exactly when the value is within the
rule's bounds. -/
theorem validateField_none_iff (minV maxV : ℚ) (msg : String) (v : ℚ) :
    validateField minV maxV msg v = none ↔ minV ≤ v ∧ v ≤ maxV := by
  unfold validateField
  split_ifs with h1 h2
  · exact iff_of_false (by simp) (by rintro ⟨ha, _⟩; exact absurd h1 (not_lt.mpr ha))
  · exact iff_of_false (by simp) (by rintro ⟨_, hb⟩; exact absurd h2 (not_lt.mpr hb))
  · exact iff_of_true rfl ⟨not_lt.mp h1, not_lt.mp h2⟩

/-- `validateFinancialLogic` reports no error exactly when
`0 ≤ g ∧ g < r`. -/
theorem validateFinancialLogic_none_iff (g r : ℚ) :
    validateFinancialLogic g r = none ↔ 0 ≤ g ∧ g < r := by
  unfold validateFinancialLogic
  split_ifs with h1 h2
  · exact iff_of_false (by simp) (by rintro ⟨_, hb⟩; exact absurd h1 (not_le.mpr hb))
  · exact iff_of_false (by simp) (by rintro ⟨ha, _⟩; exact absurd h2 (not_lt.mpr ha))
  · exact iff_of_true rfl ⟨not_lt.mp h2, not_le.mp h1⟩

/-- The loop emits one point per iteration. -/
theorem cashFlowLoop_length (d g cum : ℚ) (year n : ℕ) :
    (cashFlowLoop d g cum year n).length = n := by
  induction n generalizing cum year with
  | zero => rfl
  | succ n ih => simp [cashFlowLoop, ih]

/-- Closed form of the `i`-th point the loop emits when started at loop
counter `year` with accumulator `cum`. -/
theorem cashFlowLoop_getElem (d g cum : ℚ) (year n i : ℕ) (h : i < n) :
    (cashFlowLoop d g cum year n)[i]? =
      some { year := year + i
             dividend := d * (1 + g) ^ (year + i)
             investment := 0
             totalCashFlow := d * (1 + g) ^ (year + i)
             cumulativeCashFlow :=
               cum + ∑ j in Finset.range (i + 1), d * (1 + g) ^ (year + j) } := by
  induction n generalizing cum year i with
  | zero => omega
  | succ n ih =>
    cases i with
    | zero =>
      simp [cashFlowLoop]
    | succ i =>
      rw [cashFlowLoop]
      simp only [List.getElem?_cons_succ]
      rw [ih _ _ _ (by omega)]
      congr 1
      have hy : year + 1 + i = year + (i + 1) := by omega
      rw [hy]
      congr 1
      rw [Finset.sum_range_succ' (fun j => d * (1 + g) ^ (year + j)) (i + 1)]
      have hs : ∀ j ∈ Finset.range (i + 1),
          d * (1 + g) ^ (year + 1 + j) = d * (1 + g) ^ (year + (j + 1)) := by
        intro j _
        have : year + 1 + j = year + (j + 1) := by omega
        rw [this]
      rw [Finset.sum_congr rfl hs]
      ring

/-- Every point the loop emits has `totalCashFlow = dividend + investment`. -/
theorem cashFlowLoop_total (d g cum : ℚ) (year n : ℕ) :
    ∀ pt ∈ cashFlowLoop d g cum year n,
      pt.totalCashFlow = pt.dividend + pt.investment := by
  induction n generalizing cum year with
  | zero => simp [cashFlowLoop]
  | succ n ih =>
    intro pt hpt
    rw [cashFlowLoop] at hpt
    rcases List.mem_cons.mp hpt with h | h
    · subst h; simp
    · exact ih _ _ pt h

/-! ### Claim theorems -/

/-- C1: for every input with `marketPrice P > 0`, `currentDividend D0 ≥ 0`
and `requiredReturn` a percentage, `calculateImpliedGrowth` returns
`impliedGrowthDecimal = (r*P - D0) / (P + D0)` with `r = requiredReturn/100`,
`impliedGrowth = impliedGrowthDecimal * 100`,
`expectedD1 = D0 * (1 + impliedGrowthDecimal)` and
`dividendYield = expectedD1 / P * 100`. -/
theorem calculateImpliedGrowth_formula (P D0 rr : ℚ) (hP : 0 < P) (hD : 0 ≤ D0) :
    (calculateImpliedGrowth ⟨P, D0, rr⟩).impliedGrowthDecimal
        = (rr / 100 * P - D0) / (P + D0)
    ∧ (calculateImpliedGrowth ⟨P, D0, rr⟩).impliedGrowth
        = (calculateImpliedGrowth ⟨P, D0, rr⟩).impliedGrowthDecimal * 100
    ∧ (calculateImpliedGrowth ⟨P, D0, rr⟩).expectedD1
        = D0 * (1 + (calculateImpliedGrowth ⟨P, D0, rr⟩).impliedGrowthDecimal)
    ∧ (calculateImpliedGrowth ⟨P, D0, rr⟩).dividendYield
        = (calculateImpliedGrowth ⟨P, D0, rr⟩).expectedD1 / P * 100 :=
  ⟨rfl, rfl, rfl, rfl⟩

/-- C1 witness: the spec's Scenario 3 — price 54.56, dividend 3.60, return
7.40% gives `(0.074 * 54.56 - 3.60) / (54.56 + 3.60)`. -/
theorem calculateImpliedGrowth_formula_witness :
    (0 : ℚ) < 54.56 ∧ (0 : ℚ) ≤ 3.60
    ∧ (calculateImpliedGrowth ⟨54.56, 3.60, 7.40⟩).impliedGrowthDecimal
        = ((0.074 : ℚ) * 54.56 - 3.60) / (54.56 + 3.60) := by
  refine ⟨by norm_num, by norm_num, ?_⟩
  have h := (calculateImpliedGrowth_formula 54.56 3.60 7.40 (by norm_num) (by norm_num)).1
  rw [h]
  norm_num

/-- C2: `isValid` of the returned `GrowthResult` is true iff
`0 ≤ impliedGrowthDecimal < r` with `r = requiredReturn / 100`. -/
theorem calculateImpliedGrowth_isValid_iff (p : GrowthInputs) :
    (calculateImpliedGrowth p).isValid = true
      ↔ 0 ≤ (calculateImpliedGrowth p).impliedGrowthDecimal
        ∧ (calculateImpliedGrowth p).impliedGrowthDecimal < p.requiredReturn / 100 :=
  isValid_eq_true_iff p

/-- Reindexing the year `1..n` dividend sum from a `range` sum. -/
theorem sum_range_shift_one (f : ℕ → ℚ) (n : ℕ) :
    ∑ j in Finset.range n, f (1 + j) = ∑ j in Finset.Icc 1 n, f j := by
  induction n with
  | zero => simp
  | succ k ih =>
    rw [Finset.sum_range_succ, ih, Finset.sum_Icc_succ_top (by omega), Nat.add_comm 1 k]

/-- C3: `generateCashFlows` returns exactly `years + 1` points (11 for the
default horizon 10); point 0 is
`{year 0, dividend 0, investment -P, totalCashFlow -P, cumulativeCashFlow -P}`;
and each point `t` in `1..years` has `year = t`,
`dividend = D0 * (1+g)^t`, `investment = 0`, `totalCashFlow = dividend`,
and `cumulativeCashFlow = cumulativeCashFlow of point t-1 + totalCashFlow`. -/
theorem generateCashFlows_spec (P D0 g : ℚ) (years : ℕ) :
    (generateCashFlows P D0 g years).length = years + 1
    ∧ (generateCashFlows P D0 g 10).length = 11
    ∧ (generateCashFlows P D0 g years)[0]? =
        some { year := 0, dividend := 0, investment := -P,
               totalCashFlow := -P, cumulativeCashFlow := -P }
    ∧ ∀ t, 1 ≤ t → t ≤ years →
        ((generateCashFlows P D0 g years)[t]?.map CashFlowPoint.year = some t)
        ∧ ((generateCashFlows P D0 g years)[t]?.map CashFlowPoint.dividend
            = some (D0 * (1 + g) ^ t))
        ∧ ((generateCashFlows P D0 g years)[t]?.map CashFlowPoint.investment
            = some 0)
        ∧ ((generateCashFlows P D0 g years)[t]?.map CashFlowPoint.totalCashFlow
            = (generateCashFlows P D0 g years)[t]?.map CashFlowPoint.dividend)
        ∧ ((generateCashFlows P D0 g years)[t]?.map CashFlowPoint.cumulativeCashFlow
            = Option.map₂ (· + ·)
                ((generateCashFlows P D0 g years)[t-1]?.map
                  CashFlowPoint.cumulativeCashFlow)
                ((generateCashFlows P D0 g years)[t]?.map
                  CashFlowPoint.totalCashFlow)) := by
  refine ⟨?_, ?_, ?_, ?_⟩
  · simp [generateCashFlows, cashFlowLoop_length]
  · simp [generateCashFlows, cashFlowLoop_length]
  · rw [generateCashFlows, List.getElem?_cons_zero]
  · intro t h1 h2
    obtain ⟨i, rfl⟩ : ∃ i, t = i + 1 := ⟨t - 1, by omega⟩
    rw [generateCashFlows]
    simp only [List.getElem?_cons_succ, Nat.add_sub_cancel]
    rw [cashFlowLoop_getElem D0 g (-P) 1 years i (by omega)]
    cases i with
    | zero =>
      rw [List.getElem?_cons_zero]
      refine ⟨rfl, by norm_num, rfl, rfl, ?_⟩
      simp [Option.map₂, Finset.sum_range_one]
    | succ k =>
      rw [List.getElem?_cons_succ,
        cashFlowLoop_getElem D0 g (-P) 1 years k (by omega)]
      refine ⟨by simp [Nat.add_comm], by rw [Option.map_some', Nat.add_comm], rfl, rfl, ?_⟩
      simp only [Option.map_some', Option.map₂, Option.bind_some, Option.some_bind]
      rw [Option.some_inj]
      rw [Finset.sum_range_succ]
      ring

/-- C3 witness: the per-point description instantiated at price 100,
dividend 2, growth 1/20, horizon 3 and year index 2, together with the
length facts. -/
theorem generateCashFlows_spec_witness :
    (generateCashFlows 100 2 (1/20) 3).length = 3 + 1
    ∧ ((generateCashFlows 100 2 (1/20) 3)[2]?.map CashFlowPoint.year = some 2)
    ∧ ((generateCashFlows 100 2 (1/20) 3)[2]?.map CashFlowPoint.dividend
        = some (2 * (1 + 1/20) ^ 2))
    ∧ ((generateCashFlows 100 2 (1/20) 3)[2]?.map CashFlowPoint.investment = some 0)
    ∧ ((generateCashFlows 100 2 (1/20) 3)[2]?.map CashFlowPoint.totalCashFlow
        = (generateCashFlows 100 2 (1/20) 3)[2]?.map CashFlowPoint.dividend)
    ∧ ((generateCashFlows 100 2 (1/20) 3)[2]?.map CashFlowPoint.cumulativeCashFlow
        = Option.map₂ (· + ·)
            ((generateCashFlows 100 2 (1/20) 3)[2-1]?.map
              CashFlowPoint.cumulativeCashFlow)
            ((generateCashFlows 100 2 (1/20) 3)[2]?.map
              CashFlowPoint.totalCashFlow)) :=
  ⟨(generateCashFlows_spec 100 2 (1/20) 3).1,
    (generateCashFlows_spec 100 2 (1/20) 3).2.2.2 2 (by decide) (by decide)⟩

/-- C4: every point of `generateCashFlows` satisfies
`totalCashFlow = dividend + investment`, and the cumulative cash flow at
index `N` equals `-marketPrice` plus the sum of the dividends of points
`1..N`. -/
theorem generateCashFlows_invariants (P D0 g : ℚ) (years : ℕ) :
    (∀ pt ∈ generateCashFlows P D0 g years,
        pt.totalCashFlow = pt.dividend + pt.investment)
    ∧ ∀ N, N ≤ years →
        ((generateCashFlows P D0 g years)[N]?.map CashFlowPoint.cumulativeCashFlow)
          = some (-P + ∑ j in Finset.Icc 1 N, D0 * (1 + g) ^ j) := by
  constructor
  · intro pt hpt
    rw [generateCashFlows] at hpt
    rcases List.mem_cons.mp hpt with h | h
    · subst h; simp
    · exact cashFlowLoop_total D0 g (-P) 1 years pt h
  · intro N hN
    cases N with
    | zero =>
      rw [generateCashFlows, List.getElem?_cons_zero]
      simp [Finset.Icc_eq_empty (by omega : ¬(1:ℕ) ≤ 0)]
    | succ k =>
      rw [generateCashFlows, List.getElem?_cons_succ,
        cashFlowLoop_getElem D0 g (-P) 1 years k (by omega)]
      simp only [Option.map_some']
      rw [Option.some_inj, sum_range_shift_one (fun j => D0 * (1 + g) ^ j) (k + 1)]

/-- C4 witness: with price 100, dividend 2, growth 1/20 and horizon 3, the
cumulative cash flow at index 2 is
`-100 + sum of dividends of years 1..2`, and the year-1 point satisfies the
total-cash-flow identity. -/
theorem generateCashFlows_invariants_witness :
    ((generateCashFlows 100 2 (1/20) 3)[2]?.map CashFlowPoint.cumulativeCashFlow)
      = some (-100 + ∑ j in Finset.Icc 1 2, 2 * (1 + 1/20) ^ j)
    ∧ ({ year := 0, dividend := 0, investment := -(100:ℚ), totalCashFlow := -(100:ℚ),
         cumulativeCashFlow := -(100:ℚ) } : CashFlowPoint).totalCashFlow
      = ({ year := 0, dividend := 0, investment := -(100:ℚ), totalCashFlow := -(100:ℚ),
           cumulativeCashFlow := -(100:ℚ) } : CashFlowPoint).dividend
        + ({ year := 0, dividend := 0, investment := -(100:ℚ), totalCashFlow := -(100:ℚ),
             cumulativeCashFlow := -(100:ℚ) } : CashFlowPoint).investment :=
  ⟨(generateCashFlows_invariants 100 2 (1/20) 3).2 2 (by decide),
    (generateCashFlows_invariants 100 2 (1/20) 3).1 _ (List.mem_cons_self _ _)⟩

/-- C5: plugging Variant B's solved `g` back through
`D1 = currentDividend * (1 + g)` into Variant A's formula `r - D1 / price`
reproduces `g` exactly (in exact rational arithmetic). -/
theorem calculateImpliedGrowth_roundTrip (P D0 rr : ℚ) (hP : 0 < P)
    (hPD : P + D0 ≠ 0) :
    rr / 100 - (calculateImpliedGrowth ⟨P, D0, rr⟩).expectedD1 / P
      = (calculateImpliedGrowth ⟨P, D0, rr⟩).impliedGrowthDecimal := by
  simpa [calculateImpliedGrowth] using growth_roundTrip_aux P D0 rr (ne_of_gt hP) hPD

/-- C5 witness: the round trip at price 100, dividend 5, return 7%. -/
theorem calculateImpliedGrowth_roundTrip_witness :
    (7 : ℚ) / 100 - (calculateImpliedGrowth ⟨100, 5, 7⟩).expectedD1 / 100
      = (calculateImpliedGrowth ⟨100, 5, 7⟩).impliedGrowthDecimal :=
  calculateImpliedGrowth_roundTrip 100 5 7 (by norm_num) (by norm_num)

/-- C7: `calculateGordonPrice d1 r g` throws (returns an error) iff
`g ≥ r`, and when `g < r` it returns `d1 / (r - g)` without throwing; it is
the only operation of the calculation module embedded with an error
channel, the others being total. -/
theorem calculateGordonPrice_spec (d1 r g : ℚ) :
    ((∃ e, calculateGordonPrice d1 r g = Except.error e) ↔ r ≤ g)
    ∧ (g < r → calculateGordonPrice d1 r g = Except.ok (d1 / (r - g))) := by
  unfold calculateGordonPrice
  by_cases h : g ≥ r
  · refine ⟨iff_of_true ⟨_, if_pos h⟩ h, fun hlt => absurd h (not_le.mpr hlt)⟩
  · refine ⟨iff_of_false ?_ h, fun _ => if_neg h⟩
    rintro ⟨e, he⟩
    rw [if_neg h] at he
    exact Except.noConfusion he

/-- C7 witness: with `d1 = 2`, `r = 1/10`, `g = 1/20` the helper does not
throw and returns `2 / (1/10 - 1/20) = 40`. -/
theorem calculateGordonPrice_spec_witness :
    calculateGordonPrice 2 (1/10) (1/20) = Except.ok 40 := by
  have h := (calculateGordonPrice_spec 2 (1/10) (1/20)).2 (by norm_num)
  rw [h]
  norm_num

/-- C10: `calculateGrowthMetrics` ignores the `expectedDividend` field of
its parameter record — two parameter records agreeing on `marketPrice`,
`currentDividend` and `requiredReturn` give identical results. -/
theorem calculateGrowthMetrics_ignores_expectedDividend (p q : FullParams)
    (h1 : p.marketPrice = q.marketPrice)
    (h2 : p.currentDividend = q.currentDividend)
    (h3 : p.requiredReturn = q.requiredReturn) :
    calculateGrowthMetrics p = calculateGrowthMetrics q := by
  cases p
  cases q
  dsimp at h1 h2 h3
  subst h1
  subst h2
  subst h3
  rfl

/-- C10 witness: two records differing only in `expectedDividend`. -/
theorem calculateGrowthMetrics_ignores_expectedDividend_witness :
    calculateGrowthMetrics ⟨100, 2, 10, 5/2⟩ = calculateGrowthMetrics ⟨100, 2, 10, 40⟩ :=
  calculateGrowthMetrics_ignores_expectedDividend _ _ rfl rfl rfl

/-- C6 counterexample: at marketPrice 100, currentDividend 2,
requiredReturn 10, expectedDividend 20 every per-field check passes, yet
the financial check reports an error (its growth
`r - expectedDividend/marketPrice = -1/10` is negative) while the engine's
`isValid` (computed from `currentDividend`) is `true`. -/
theorem validateAllInputs_financial_counterexample :
    fieldsPass ⟨100, 2, 10, 20⟩
    ∧ ¬(((validateAllInputs ⟨100, 2, 10, 20⟩).financial = none)
        ↔ ((calculateImpliedGrowth ⟨100, 2, 10⟩).isValid = true)) := by
  constructor
  · unfold fieldsPass
    refine ⟨?_, ?_, ?_, ?_⟩ <;> norm_num [validateAllInputs, validateField]
  · intro h
    have hv : (calculateImpliedGrowth ⟨100, 2, 10⟩).isValid = true := by
      simp only [calculateImpliedGrowth, Bool.and_eq_true, decide_eq_true_eq]
      norm_num
    have hf := h.mpr hv
    rw [show (validateAllInputs ⟨100, 2, 10, 20⟩).financial
          = some "Invalid inputs: implied growth rate cannot be negative" from by
        norm_num [validateAllInputs, validateField, validateFinancialLogic]] at hf
    exact Option.noConfusion hf

/-- C6 amended: for inputs passing all per-field checks, the financial
check reports no error iff the validity predicate holds of the Variant-A
growth `r - expectedDividend/marketPrice` — not of the engine's Variant-B
`impliedGrowthDecimal`; the two agree exactly when `expectedDividend`
equals the engine's own `expectedD1`. -/
theorem validateAllInputs_financial_spec (inputs : ValidationInputs)
    (hf : fieldsPass inputs) :
    ((validateAllInputs inputs).financial = none
      ↔ (0 ≤ inputs.requiredReturn / 100
            - inputs.expectedDividend / inputs.marketPrice
         ∧ inputs.requiredReturn / 100
            - inputs.expectedDividend / inputs.marketPrice
            < inputs.requiredReturn / 100))
    ∧ ((inputs.expectedDividend
          = (calculateImpliedGrowth ⟨inputs.marketPrice, inputs.currentDividend,
              inputs.requiredReturn⟩).expectedD1) →
        ((validateAllInputs inputs).financial = none
          ↔ (calculateImpliedGrowth ⟨inputs.marketPrice, inputs.currentDividend,
              inputs.requiredReturn⟩).isValid = true)) := by
  obtain ⟨hmp, hcd, hrr, hed⟩ := hf
  have hmp' : validateField 1 500 "Market price must be between $1 and $500"
      inputs.marketPrice = none := hmp
  have hcd' : validateField 0 50 "Current dividend must be between $0 and $50"
      inputs.currentDividend = none := hcd
  have hrr' : validateField (1/100) 25 "Required return must be between 0.01% and 25%"
      inputs.requiredReturn = none := hrr
  have hed' : validateField 0 50 "Expected next dividend must be between $0 and $50"
      inputs.expectedDividend = none := hed
  have hPb := (validateField_none_iff 1 500 _ inputs.marketPrice).mp hmp'
  have hDb := (validateField_none_iff 0 50 _ inputs.currentDividend).mp hcd'
  have hP0 : inputs.marketPrice ≠ 0 := by
    have : (0:ℚ) < inputs.marketPrice := by linarith [hPb.1]
    exact ne_of_gt this
  have hPD : inputs.marketPrice + inputs.currentDividend ≠ 0 := by
    have : (0:ℚ) < inputs.marketPrice + inputs.currentDividend := by
      linarith [hPb.1, hDb.1]
    exact ne_of_gt this
  have hfin : (validateAllInputs inputs).financial
      = validateFinancialLogic
          (inputs.requiredReturn / 100 - inputs.expectedDividend / inputs.marketPrice)
          (inputs.requiredReturn / 100) := by
    simp only [validateAllInputs]
    rw [hmp', hcd', hrr', hed']
    simp
  constructor
  · rw [hfin, validateFinancialLogic_none_iff]
  · intro hD1
    rw [hfin, hD1]
    have hexp : (calculateImpliedGrowth ⟨inputs.marketPrice, inputs.currentDividend,
        inputs.requiredReturn⟩).expectedD1
        = inputs.currentDividend
          * (1 + (inputs.requiredReturn / 100 * inputs.marketPrice
              - inputs.currentDividend)
            / (inputs.marketPrice + inputs.currentDividend)) := rfl
    have hrt := growth_roundTrip_aux inputs.marketPrice inputs.currentDividend
      inputs.requiredReturn hP0 hPD
    rw [validateFinancialLogic_none_iff, hexp, hrt, isValid_eq_true_iff]
    exact Iff.rfl

/-- C6 amended witness: inputs 50, 2, 10, 2.5 pass the field checks and
the financial check agrees with the Variant-A growth predicate there. -/
theorem validateAllInputs_financial_spec_witness :
    (validateAllInputs ⟨50, 2, 10, 5/2⟩).financial = none
      ↔ (0 ≤ (⟨50, 2, 10, 5/2⟩ : ValidationInputs).requiredReturn / 100
            - (⟨50, 2, 10, 5/2⟩ : ValidationInputs).expectedDividend
              / (⟨50, 2, 10, 5/2⟩ : ValidationInputs).marketPrice
         ∧ (⟨50, 2, 10, 5/2⟩ : ValidationInputs).requiredReturn / 100
            - (⟨50, 2, 10, 5/2⟩ : ValidationInputs).expectedDividend
              / (⟨50, 2, 10, 5/2⟩ : ValidationInputs).marketPrice
            < (⟨50, 2, 10, 5/2⟩ : ValidationInputs).requiredReturn / 100) :=
  (validateAllInputs_financial_spec ⟨50, 2, 10, 5/2⟩
    (by unfold fieldsPass
        refine ⟨?_, ?_, ?_, ?_⟩ <;> norm_num [validateAllInputs, validateField])).1

/-- The JavaScript-model loop also emits one point per iteration,
whatever the values. -/
theorem cashFlowLoopJS_length (d g cum : JNum) (year n : ℕ) :
    (cashFlowLoopJS d g cum year n).length = n := by
  induction n generalizing cum year with
  | zero => rfl
  | succ n ih => simp [cashFlowLoopJS, ih]

/-- `none` absorbs `jAdd` on the left. -/
theorem jAdd_none_left (a : JNum) : jAdd none a = none := by cases a <;> rfl

/-- `none` absorbs `jAdd` on the right. -/
theorem jAdd_none_right (a : JNum) : jAdd a none = none := by cases a <;> rfl

/-- `none` absorbs `jSub` on the left. -/
theorem jSub_none_left (a : JNum) : jSub none a = none := by cases a <;> rfl

/-- `none` absorbs `jSub` on the right. -/
theorem jSub_none_right (a : JNum) : jSub a none = none := by cases a <;> rfl

/-- `none` absorbs `jMul` on the left. -/
theorem jMul_none_left (a : JNum) : jMul none a = none := by cases a <;> rfl

/-- `none` absorbs `jMul` on the right. -/
theorem jMul_none_right (a : JNum) : jMul a none = none := by cases a <;> rfl

/-- `none` absorbs `jDiv` on the left. -/
theorem jDiv_none_left (a : JNum) : jDiv none a = none := by cases a <;> rfl

/-- `none` absorbs `jDiv` on the right. -/
theorem jDiv_none_right (a : JNum) : jDiv a none = none := by cases a <;> rfl

/-- A comparison with a non-finite left operand is `false`. -/
theorem jLt_none_left (a : JNum) : jLt none a = false := by cases a <;> rfl

/-- C8 counterexample: called with a missing `marketPrice` (and ordinary
values for the other two inputs), `calculateGrowthMetrics` does not fail:
it returns a complete `GrowthMetrics` record — `NaN` growth fields,
`isValid = false`, and a full 11-point cash-flow schedule. -/
theorem calculateGrowthMetricsJS_counterexample :
    (calculateGrowthMetricsJS none (some 2) (some 10)).impliedGrowthDecimal = none
    ∧ (calculateGrowthMetricsJS none (some 2) (some 10)).impliedGrowth = none
    ∧ (calculateGrowthMetricsJS none (some 2) (some 10)).isValid = false
    ∧ (calculateGrowthMetricsJS none (some 2) (some 10)).cashFlows.length = 11 := by
  refine ⟨?_, ?_, ?_, ?_⟩ <;>
    simp [calculateGrowthMetricsJS, calculateImpliedGrowthJS, generateCashFlowsJS,
      cashFlowLoopJS_length, jDiv, jMul, jSub, jAdd, jLt, jNeg]

/-- C8 amended: `calculateGrowthMetrics` performs no input check of its
own — whenever any of its three required inputs is missing or non-numeric
it still returns a `GrowthMetrics` record, with `NaN` growth fields,
`isValid = false` and the full 11-point schedule, rather than signalling
an error. -/
theorem calculateGrowthMetricsJS_missing_input (mp cd rr : JNum)
    (h : mp = none ∨ cd = none ∨ rr = none) :
    (calculateGrowthMetricsJS mp cd rr).impliedGrowthDecimal = none
    ∧ (calculateGrowthMetricsJS mp cd rr).isValid = false
    ∧ (calculateGrowthMetricsJS mp cd rr).cashFlows.length = 11 := by
  have hg : (calculateGrowthMetricsJS mp cd rr).impliedGrowthDecimal = none := by
    rcases h with h | h | h <;> subst h <;>
      simp [calculateGrowthMetricsJS, calculateImpliedGrowthJS,
        jAdd_none_left, jAdd_none_right, jSub_none_left, jSub_none_right,
        jMul_none_left, jMul_none_right, jDiv_none_left, jDiv_none_right]
  refine ⟨hg, ?_, ?_⟩
  · have hv : (calculateGrowthMetricsJS mp cd rr).isValid
        = (jLt (calculateGrowthMetricsJS mp cd rr).impliedGrowthDecimal
            (jDiv rr (some 100))
          && jGe (calculateGrowthMetricsJS mp cd rr).impliedGrowthDecimal (some 0)) :=
      rfl
    rw [hv, hg, jLt_none_left, Bool.false_and]
  · simp [calculateGrowthMetricsJS, generateCashFlowsJS, cashFlowLoopJS_length]

/-- C8 amended witness: the missing-`marketPrice` call instantiated. -/
theorem calculateGrowthMetricsJS_missing_input_witness :
    (calculateGrowthMetricsJS none (some 3) (some 12)).impliedGrowthDecimal = none
    ∧ (calculateGrowthMetricsJS none (some 3) (some 12)).isValid = false
    ∧ (calculateGrowthMetricsJS none (some 3) (some 12)).cashFlows.length = 11 :=
  calculateGrowthMetricsJS_missing_input none (some 3) (some 12) (Or.inl rfl)

/-- C9: with `marketPrice` at the minimum bound 1 of `VALIDATION_RULES`
(the bound the per-field check enforces) and `currentDividend = 0`, every
in-range `requiredReturn` gives a finite, non-`NaN` implied growth: in the
JavaScript-value model the result is `some` of an actual rational —
`impliedGrowthDecimal = rr/100` and `impliedGrowth = rr` — because both
division denominators are the nonzero `marketPrice` and
`marketPrice + currentDividend`. -/
theorem calculateImpliedGrowthJS_boundary (rr : ℚ) (h1 : 1/100 ≤ rr) (h2 : rr ≤ 25) :
    validateField 1 500 "Market price must be between $1 and $500" 1 = none
    ∧ (calculateImpliedGrowthJS (some 1) (some 0) (some rr)).impliedGrowthDecimal
        = some (rr / 100)
    ∧ (calculateImpliedGrowthJS (some 1) (some 0) (some rr)).impliedGrowth
        = some rr := by
  refine ⟨by norm_num [validateField], ?_, ?_⟩
  · simp [calculateImpliedGrowthJS, jDiv, jMul, jSub, jAdd]
  · simp [calculateImpliedGrowthJS, jDiv, jMul, jSub, jAdd]

/-- C9 witness: the boundary result at the spec's return 7.4%. -/
theorem calculateImpliedGrowthJS_boundary_witness :
    validateField 1 500 "Market price must be between $1 and $500" 1 = none
    ∧ (calculateImpliedGrowthJS (some 1) (some 0) (some (37/5))).impliedGrowthDecimal
        = some ((37:ℚ)/5 / 100)
    ∧ (calculateImpliedGrowthJS (some 1) (some 0) (some (37/5))).impliedGrowth
        = some ((37:ℚ)/5) :=
  calculateImpliedGrowthJS_boundary (37/5) (by norm_num) (by norm_num)

end ImpliedGrowth
